import Mathlib

set_option autoImplicit false

/-!
Verification of the mcp-sales-demo query engine.

The development shallowly embeds the repository's code:

* `src/sales-data.mjs` (the dataset generator `generateSales`,
  `randomDateWithinDays`, and the enumerations) — randomness is made
  explicit: every call to `randomInt` is replaced by an explicit choice
  recorded in a `GenChoice`, constrained by `validChoice` to the ranges
  `randomInt` can produce.  JavaScript `Date` values are modelled by
  `JsDate` (a local calendar-day index plus seconds-of-day and
  milliseconds); `Date.prototype.setDate(getDate() - n)` becomes
  subtraction on the day index and `setHours(h, m, s, 0)` replaces the
  time-of-day fields.  Instants compare through `JsDate.toMillis`.
* `src/server/index.mjs` (the `list-sales`, `search` and `fetch` tool
  handlers, their zod input schemas, `buildPayload`, the module-level
  `DATASET` / `SALES_BY_ID` constants and the per-request `createServer`).
  `new Date()` inside `buildPayload` is modelled by passing the invocation
  instant explicitly; zod validation becomes a Boolean validity check and
  a validated tool returns `none` exactly when the schema rejects the
  input.  JavaScript string truthiness (`if (customer && ...)`) is
  modelled by `jsTruthy`.

Numbers: `quantity`/`unitPrice` are integers in the source (`randomInt`),
modelled as `ℕ`; monetary amounts and the numeric filter bounds are `ℚ`;
JS `Number((q * u).toFixed(2))` is modelled by decimal rounding `round2`.
-/

/-- A JavaScript `Date` in local time: calendar-day index (days since an
arbitrary epoch), seconds within the day, and milliseconds.  Well-formed
dates have `sod < 86400` and `msec < 1000`. -/
structure JsDate where
  day : ℤ
  sod : ℕ
  msec : ℕ
deriving DecidableEq, Repr

/-- The instant of a `JsDate` in milliseconds since the epoch. -/
def JsDate.toMillis (d : JsDate) : ℤ :=
  d.day * 86400000 + (d.sod : ℤ) * 1000 + (d.msec : ℤ)

/-- `CUSTOMERS` from `sales-data.mjs`. -/
def CUSTOMERS : List String :=
  ["Acme Corp", "Globex", "Initech", "Soylent", "Umbrella",
   "Stark Industries", "Wayne Enterprises", "Wonka Industries",
   "Oscorp", "Tyrell Corp"]

/-- `PRODUCTS` from `sales-data.mjs`. -/
def PRODUCTS : List String :=
  ["MCP Gateway", "MCP Analytics Suite", "MCP Pro License",
   "MCP Starter Pack", "MCP Monitoring", "MCP Security Add-on",
   "MCP Mobile", "MCP Integrations Bundle"]

/-- `REGIONS` from `sales-data.mjs`. -/
def REGIONS : List String := ["Norte", "Sur", "Este", "Oeste", "Centro"]

/-- `STATUSES` from `sales-data.mjs`. -/
def STATUSES : List String := ["Completed", "Pending", "Cancelled"]

/-- One record's worth of random draws made by `generateSales`: the
`randomItem` indices and the `randomInt` results, in source order. -/
structure GenChoice where
  customerIdx : ℕ
  productIdx : ℕ
  regionIdx : ℕ
  statusIdx : ℕ
  quantity : ℕ
  unitPrice : ℕ
  dateOffset : ℕ
  dateH : ℕ
  dateM : ℕ
  dateS : ℕ
deriving DecidableEq, Repr

/-- The ranges `randomInt` draws from in `generateSales` /
`randomDateWithinDays`: indices within the enumerations, `quantity` in
`[1,25]`, `unitPrice` in `[50,750]`, the date offset in `[0,120]` days and
the time-of-day fields in `[0,23]`/`[0,59]`/`[0,59]`. -/
def validChoice (c : GenChoice) : Bool :=
  c.customerIdx < CUSTOMERS.length && c.productIdx < PRODUCTS.length &&
  c.regionIdx < REGIONS.length && c.statusIdx < STATUSES.length &&
  1 ≤ c.quantity && c.quantity ≤ 25 &&
  50 ≤ c.unitPrice && c.unitPrice ≤ 750 &&
  c.dateOffset ≤ 120 && c.dateH ≤ 23 && c.dateM ≤ 59 && c.dateS ≤ 59

/-- `randomDateWithinDays` from `sales-data.mjs`: starting from `now`,
`setDate(now.getDate() - pastOffset)` moves `pastOffset` calendar days
back keeping the time of day, then `setHours(h, m, s, 0)` overwrites the
time of day. -/
def randomDateWithinDays (now : JsDate) (pastOffset h m s : ℕ) : JsDate :=
  { day := now.day - (pastOffset : ℤ), sod := h * 3600 + m * 60 + s, msec := 0 }

/-- `String.prototype.padStart(4, '0')`. -/
def padStart4 (s : String) : String :=
  if s.length ≥ 4 then s else String.mk (List.replicate (4 - s.length) '0') ++ s

/-- Decimal rounding to two places, the model of
`Number(x.toFixed(2))`. -/
def round2 (q : ℚ) : ℚ := ((round (q * 100) : ℤ) : ℚ) / 100

/-- A sale record as produced by `generateSales` (cf. the `SaleRecord`
interface in `src/app/models/sale.ts`; `saleDate` is kept as a `JsDate`
rather than its ISO string — `toISOString` is injective on instants). -/
structure SaleRecord where
  id : String
  customerName : String
  productName : String
  region : String
  quantity : ℕ
  unitPrice : ℕ
  totalAmount : ℚ
  saleDate : JsDate
  status : String
deriving DecidableEq, Repr

/-- The record `generateSales` builds at position `index` from the draws
`c`, `now` being the generation instant. -/
def makeSale (now : JsDate) (index : ℕ) (c : GenChoice) : SaleRecord :=
  { id := "SALE-" ++ padStart4 (toString (index + 1))
    customerName := CUSTOMERS.getD c.customerIdx ""
    productName := PRODUCTS.getD c.productIdx ""
    region := REGIONS.getD c.regionIdx ""
    quantity := c.quantity
    unitPrice := c.unitPrice
    totalAmount := round2 ((c.quantity * c.unitPrice : ℕ) : ℚ)
    saleDate := randomDateWithinDays now c.dateOffset c.dateH c.dateM c.dateS
    status := STATUSES.getD c.statusIdx "" }

/-- `generateSales(count)` from `sales-data.mjs`, the random draws for
position `i` given by `f i`. -/
def generateSales (now : JsDate) (count : ℕ) (f : ℕ → GenChoice) : List SaleRecord :=
  (List.range count).map (fun i => makeSale now i (f i))

/-! ## String helpers: `toLowerCase` and `includes` -/

/-- Model of `String.prototype.toLowerCase` (character-wise lowering). -/
def lowerStr (s : String) : String := String.mk (s.data.map Char.toLower)

/-- Does `needle` occur as a leading segment of `hay`? -/
def leadMatch : List Char → List Char → Bool
  | [], _ => true
  | _ :: _, [] => false
  | a :: as, b :: bs => a == b && leadMatch as bs

/-- Does `needle` occur as a contiguous segment of the list? -/
def hasSegment (needle : List Char) : List Char → Bool
  | [] => needle.isEmpty
  | c :: rest => leadMatch needle (c :: rest) || hasSegment needle rest

/-- Model of `hay.includes(needle)` for JS strings. -/
def strIncludes (hay needle : String) : Bool := hasSegment needle.data hay.data

/-! ## The server module (`src/server/index.mjs`) -/

/-- `RESOURCE_URI` from `index.mjs`. -/
def RESOURCE_URI : String := "mcp://ventas/records"

/-- `DATA_NOTE` from `index.mjs`. -/
def DATA_NOTE : String :=
  "Los registros son generados aleatoriamente y no representan ventas reales."

/-- The module-level `const DATASET = generateSales(100)`: evaluated once
at process start, from the single random draw `(now, f)` the module
consumes. -/
def DATASET (now : JsDate) (f : ℕ → GenChoice) : List SaleRecord :=
  generateSales now 100 f

/-- `SALES_BY_ID`: the `Map` built by inserting each record of `d` under
its `id` in order (a later record with the same key overwrites an earlier
one, as for a JS `Map`); `SALES_BY_ID d key` is `map.get(key)`. -/
def SALES_BY_ID (d : List SaleRecord) (key : String) : Option SaleRecord :=
  d.foldl (fun acc r => if r.id == key then some r else acc) none

/-- JS string truthiness: a string is truthy iff it is non-empty. -/
def jsTruthy (s : String) : Bool := !(s == "")

/-- The `filters` object of the `search` tool's input schema
(`searchSchema.filters` in `index.mjs`); every field is optional. -/
structure SearchFilters where
  customer : Option String
  product : Option String
  region : Option String
  status : Option String
  minTotal : Option ℚ
  maxTotal : Option ℚ
deriving DecidableEq, Repr

/-- The destructuring default `filters ?? {}`: all fields absent. -/
def defaultFilters : SearchFilters :=
  { customer := none, product := none, region := none, status := none,
    minTotal := none, maxTotal := none }

/-- The `search` handler's filter predicate (`DATASET.filter((sale) => ...)`
in `index.mjs`): each early `return false` becomes a conjunct.  The string
filters are guarded by JS truthiness (`if (customer && ...)`), the numeric
bounds by `typeof ... === 'number'` (always true of a supplied zod
number), and the free-text test lowercases the query and the space-joined
projection of the four text fields. -/
def matchesSale (query : String) (F : SearchFilters) (sale : SaleRecord) : Bool :=
  (match F.customer with
   | none => true
   | some c => !(jsTruthy c) || sale.customerName == c) &&
  (match F.product with
   | none => true
   | some p => !(jsTruthy p) || sale.productName == p) &&
  (match F.region with
   | none => true
   | some r => !(jsTruthy r) || sale.region == r) &&
  (match F.status with
   | none => true
   | some s => !(jsTruthy s) || sale.status == s) &&
  (match F.minTotal with
   | none => true
   | some m => decide (m ≤ sale.totalAmount)) &&
  (match F.maxTotal with
   | none => true
   | some m => decide (sale.totalAmount ≤ m)) &&
  strIncludes
    (lowerStr (sale.customerName ++ " " ++ sale.productName ++ " " ++
               sale.region ++ " " ++ sale.status))
    (lowerStr query)

/-- The pre-truncation match list of `search`. -/
def searchMatches (d : List SaleRecord) (query : String)
    (F : SearchFilters) : List SaleRecord :=
  d.filter (matchesSale query F)

/-- One entry of the `results` array built by the `search` handler. -/
structure SearchResult where
  id : String
  title : String
  snippet : String
  uri : String
  score : ℕ
deriving DecidableEq, Repr

/-- `Number.prototype.toFixed(2)` modelled over `ℚ` (decimal rounding,
two digits, as for the exact integer amounts the generator produces). -/
def toFixed2 (x : ℚ) : String :=
  let n : ℤ := round (x * 100)
  let body := fun (m : ℤ) =>
    toString (m / 100) ++ "." ++
    (if m % 100 < 10 then "0" ++ toString (m % 100) else toString (m % 100))
  if n < 0 then "-" ++ body (-n) else body n

/-- The `query` echo object inside the `search` handler's
`structuredContent` (`filters ?? null`, `limit ?? null`). -/
structure SearchQueryEcho where
  query : String
  filters : Option SearchFilters
  limit : Option ℤ
deriving DecidableEq, Repr

/-- The `structuredContent` of a `search` response. -/
structure SearchContent where
  results : List SearchResult
  totalMatches : ℕ
  returned : ℕ
  note : String
  queryEcho : SearchQueryEcho
deriving DecidableEq, Repr

/-- A tool response: the `content` text items and the
`structuredContent`. -/
structure ToolResponse (α : Type) where
  content : List String
  structuredContent : α
deriving DecidableEq, Repr

/-- The `search` tool handler body from `index.mjs`. -/
def searchHandler (d : List SaleRecord) (query : String)
    (filters : Option SearchFilters) (lim : Option ℤ) :
    ToolResponse SearchContent :=
  let matchList := searchMatches d query (filters.getD defaultFilters)
  let capped := matchList.take (lim.getD 20).toNat
  let results := capped.map (fun sale =>
    { id := sale.id
      title := sale.customerName ++ " · " ++ sale.productName
      snippet := "Estado " ++ sale.status ++ " · Total USD " ++
                 toFixed2 sale.totalAmount ++ " · Región " ++ sale.region
      uri := RESOURCE_URI ++ "#" ++ sale.id
      score := 1 })
  { content :=
      [if results.length == 0 then
        "No se encontraron ventas para los filtros solicitados."
       else
        "Coincidencias encontradas: " ++ toString matchList.length ++
        ". Se devuelven los primeros " ++ toString results.length ++ "."]
    structuredContent :=
      { results := results
        totalMatches := matchList.length
        returned := results.length
        note := DATA_NOTE
        queryEcho := { query := query, filters := filters, limit := lim } } }

/-- The zod `searchSchema`: `query` non-empty; `region`/`status`, when
supplied, members of their enumerations; `limit`, when supplied, in
`[1,100]`; `customer`/`product` unconstrained strings. -/
def searchValid (query : String) (filters : Option SearchFilters)
    (lim : Option ℤ) : Bool :=
  decide (1 ≤ query.length) &&
  (match filters with
   | none => true
   | some F =>
     (match F.region with | none => true | some r => REGIONS.contains r) &&
     (match F.status with | none => true | some s => STATUSES.contains s)) &&
  (match lim with
   | none => true
   | some L => decide (1 ≤ L) && decide (L ≤ 100))

/-- The validated `search` tool: `none` iff the schema rejects the input.
The invocation instant `_now` is passed for uniformity; the handler never
reads the clock. -/
def searchTool (d : List SaleRecord) (_now : ℤ) (query : String)
    (filters : Option SearchFilters) (lim : Option ℤ) :
    Option (ToolResponse SearchContent) :=
  if searchValid query filters lim then some (searchHandler d query filters lim)
  else none

/-- The `structuredContent` of a `list-sales` response (`buildPayload`
plus the `extra` fields the handler passes; `generatedAt` is the
`new Date().toISOString()` instant, kept as milliseconds — `toISOString`
is injective on instants). -/
structure ListContent where
  generatedAt : ℤ
  total : ℕ
  records : List SaleRecord
  note : String
  limit : ℤ
  totalAvailable : ℕ
  source : String
deriving DecidableEq, Repr

/-- The `list-sales` tool handler body from `index.mjs`:
`limit = Math.min(count ?? DATASET.length, DATASET.length)`,
`records = DATASET.slice(0, limit)`, wrapped by `buildPayload` at the
invocation instant `now`. -/
def listHandler (d : List SaleRecord) (now : ℤ) (count : Option ℤ) :
    ToolResponse ListContent :=
  let lim : ℤ := min (count.getD (d.length : ℤ)) (d.length : ℤ)
  let records := d.take lim.toNat
  { content :=
      ["Se devuelven " ++ toString records.length ++
       " registros sintéticos (máximo " ++ toString d.length ++ ")."]
    structuredContent :=
      { generatedAt := now
        total := records.length
        records := records
        note := DATA_NOTE
        limit := lim
        totalAvailable := d.length
        source := "list-sales" } }

/-- The zod schema of `list-sales`' `count`:
`z.number().min(1).max(DATASET.length).optional()`. -/
def listValid (datasetLength : ℕ) (count : Option ℤ) : Bool :=
  match count with
  | none => true
  | some c => decide (1 ≤ c) && decide (c ≤ (datasetLength : ℤ))

/-- The validated `list-sales` tool: `none` iff the schema rejects
`count`. -/
def listTool (d : List SaleRecord) (now : ℤ) (count : Option ℤ) :
    Option (ToolResponse ListContent) :=
  if listValid d.length count then some (listHandler d now count) else none

/-- `[...new Set(requestedIds)]`: duplicates removed keeping each
element's first occurrence, via the running set `seen`. -/
def firstDedupAux (seen : List String) : List String → List String
  | [] => []
  | a :: l =>
    if a ∈ seen then firstDedupAux seen l
    else a :: firstDedupAux (a :: seen) l

/-- `uniqueIds` of the `fetch` handler. -/
def firstDedup (l : List String) : List String := firstDedupAux [] l

/-- The `uniqueIds.forEach` loop of the `fetch` handler: pushes each
resolved record onto `records` and each unresolved id onto `missing`,
in resolution order. -/
def fetchResolve (store : String → Option SaleRecord) :
    List String → List SaleRecord × List String
  | [] => ([], [])
  | i :: rest =>
    let p := fetchResolve store rest
    match store i with
    | some sale => (sale :: p.1, p.2)
    | none => (p.1, i :: p.2)

/-- The `structuredContent` of a `fetch` response
(`missing.length > 0 ? missing : undefined`). -/
structure FetchContent where
  records : List SaleRecord
  missing : Option (List String)
  note : String
deriving DecidableEq, Repr

/-- The `fetch` tool handler body from `index.mjs`. -/
def fetchHandler (d : List SaleRecord) (id : String)
    (ids : Option (List String)) : ToolResponse FetchContent :=
  let requestedIds := id :: ids.getD []
  let uniqueIds := firstDedup requestedIds
  let p := fetchResolve (SALES_BY_ID d) uniqueIds
  let messageParts :=
    (if p.1.length > 0 then
      ["Se devolvieron " ++ toString p.1.length ++ " registro(s) solicitado(s)."]
     else []) ++
    (if p.2.length > 0 then
      ["IDs no encontrados: " ++ String.intercalate ", " p.2 ++ "."]
     else [])
  { content :=
      if messageParts.length > 0 then [String.intercalate " " messageParts]
      else []
    structuredContent :=
      { records := p.1
        missing := if p.2.length > 0 then some p.2 else none
        note := DATA_NOTE } }

/-- The zod `fetchSchema`: `id` non-empty; `ids`, when supplied, between
1 and 50 non-empty strings. -/
def fetchValid (id : String) (ids : Option (List String)) : Bool :=
  decide (1 ≤ id.length) &&
  (match ids with
   | none => true
   | some l =>
     decide (1 ≤ l.length) && decide (l.length ≤ 50) &&
     l.all (fun i => decide (1 ≤ i.length)))

/-- The validated `fetch` tool; the invocation instant `_now` is passed
for uniformity, the handler never reads the clock. -/
def fetchTool (d : List SaleRecord) (_now : ℤ) (id : String)
    (ids : Option (List String)) : Option (ToolResponse FetchContent) :=
  if fetchValid id ids then some (fetchHandler d id ids) else none

/-! ## The per-request server (`createServer` / `app.post('/mcp')`) -/

/-- The state a `McpServer` built by `createServer()` closes over: the
module-level dataset (`createServer` registers handlers over `DATASET`
and `SALES_BY_ID`; it generates nothing itself). -/
structure ServerModel where
  dataset : List SaleRecord
deriving DecidableEq, Repr

/-- `createServer()` from `index.mjs`, with the module's single random
draw `(now, f)` in scope: the new server serves the module-level
`DATASET now f`. -/
def createServer (now : JsDate) (f : ℕ → GenChoice) : ServerModel :=
  { dataset := DATASET now f }

/-- The `app.post('/mcp')` route: each incoming request (indexed by
`_requestIndex`) constructs a fresh server via `createServer()`. -/
def handleMcpPost (now : JsDate) (f : ℕ → GenChoice) (_requestIndex : ℕ) :
    ServerModel :=
  createServer now f

/-- The records a session observes through `list-sales` with no `count`
argument (`t` is the invocation instant). -/
def sessionObservedRecords (now : JsDate) (f : ℕ → GenChoice)
    (requestIndex : ℕ) (t : ℤ) : List SaleRecord :=
  (listHandler (handleMcpPost now f requestIndex).dataset t none).structuredContent.records

/-! ## Spec-side definitions

These two definitions follow the spec's words rather than the code; the
refinement claims compare them with the code-derived definitions above. -/

/-- Spec-side match predicate, following §4.3 of the spec: "a record
matches if and only if (a) every supplied structured filter
equality/range holds, AND (b) the lowercase free-text `query` is a
substring of the lowercase concatenation of the record's customer name,
product name, region, and status (space-joined, in that order)". -/
def specMatches (query : String) (F : SearchFilters) (sale : SaleRecord) : Bool :=
  F.customer.all (fun c => sale.customerName == c) &&
  F.product.all (fun p => sale.productName == p) &&
  F.region.all (fun r => sale.region == r) &&
  F.status.all (fun s => sale.status == s) &&
  F.minTotal.all (fun m => decide (m ≤ sale.totalAmount)) &&
  F.maxTotal.all (fun m => decide (sale.totalAmount ≤ m)) &&
  strIncludes
    (lowerStr (sale.customerName ++ " " ++ sale.productName ++ " " ++
               sale.region ++ " " ++ sale.status))
    (lowerStr query)

/-- Spec-side deduplication, following §4.3 of the spec: "the union of
`{id} ∪ ids` with duplicates removed, preserving first-occurrence
order" (left fold appending each element not yet present). -/
def specUnique (l : List String) : List String :=
  l.foldl (fun acc a => if a ∈ acc then acc else acc ++ [a]) []

/-! ## Concrete data for counterexamples and witnesses -/

/-- A fixed generation instant (local midnight, zero milliseconds). -/
def now0 : JsDate := { day := 0, sod := 0, msec := 0 }

/-- A concrete in-range random draw (first item of each enumeration,
quantity 2, unit price 100, sale date 10 days back at 01:02:03). -/
def genChoice0 : GenChoice :=
  { customerIdx := 0, productIdx := 0, regionIdx := 0, statusIdx := 0,
    quantity := 2, unitPrice := 100, dateOffset := 10, dateH := 1,
    dateM := 2, dateS := 3 }

/-- A concrete schema-valid sale record (field values as the generator
would produce them). -/
def sampleSale : SaleRecord :=
  { id := "SALE-0001", customerName := "Acme Corp", productName := "MCP Gateway",
    region := "Norte", quantity := 2, unitPrice := 100, totalAmount := 200,
    saleDate := now0, status := "Completed" }

/-- A filters object that supplies `customer` as the empty string. -/
def emptyCustomerFilters : SearchFilters :=
  { defaultFilters with customer := some "" }

/-! ## C1: the search match predicate -/

/-- When every supplied string filter is non-empty, the handler's
truthiness-guarded predicate agrees with the spec's "every supplied
filter holds" predicate. -/
theorem matchesSale_iff_specMatches (query : String) (F : SearchFilters)
    (sale : SaleRecord)
    (hc : ∀ c, F.customer = some c → c ≠ "")
    (hp : ∀ p, F.product = some p → p ≠ "")
    (hr : ∀ r, F.region = some r → r ≠ "")
    (hs : ∀ s, F.status = some s → s ≠ "") :
    matchesSale query F sale = true ↔ specMatches query F sale = true := by
  rcases F with ⟨oc, op, og, os, omi, oma⟩
  cases oc <;> cases op <;> cases og <;> cases os <;> cases omi <;> cases oma <;>
    simp_all [matchesSale, specMatches, jsTruthy]

/-- C1 (amended): a record of the dataset appears among the
pre-truncation matches of `search` iff every supplied structured filter
holds of it and the lowercased query is a substring of the lowercased
space-joined projection — provided every supplied string filter is
non-empty (the handler treats a supplied empty-string filter as absent,
not as an exact-match constraint; see the counterexample). -/
theorem search_match_iff_spec (d : List SaleRecord) (query : String)
    (F : SearchFilters) (sale : SaleRecord)
    (hc : ∀ c, F.customer = some c → c ≠ "")
    (hp : ∀ p, F.product = some p → p ≠ "")
    (hr : ∀ r, F.region = some r → r ≠ "")
    (hs : ∀ s, F.status = some s → s ≠ "") :
    sale ∈ searchMatches d query F ↔
      sale ∈ d ∧ specMatches query F sale = true := by
  unfold searchMatches
  rw [List.mem_filter, matchesSale_iff_specMatches query F sale hc hp hr hs]

/-- C1 counterexample: with the schema-valid input `query = "acme"`,
`filters = {customer: ""}`, the record `sampleSale` (customer name
`"Acme Corp"`) appears among the matches even though the supplied
`customer` filter does not hold of it by exact equality — the claimed
equivalence fails for empty-string filters. -/
theorem search_match_empty_filter_cx :
    sampleSale ∈ searchMatches [sampleSale] "acme" emptyCustomerFilters ∧
    specMatches "acme" emptyCustomerFilters sampleSale = false ∧
    searchValid "acme" (some emptyCustomerFilters) none = true := by
  refine ⟨?_, by decide, by decide⟩
  unfold searchMatches
  exact List.mem_filter.mpr ⟨List.mem_singleton_self _, by decide⟩

/-- C1 witness: the amended equivalence instantiated at `sampleSale`
with no filters supplied. -/
theorem search_match_iff_spec_witness :
    sampleSale ∈ searchMatches [sampleSale] "acme" defaultFilters ↔
      sampleSale ∈ [sampleSale] ∧
        specMatches "acme" defaultFilters sampleSale = true :=
  search_match_iff_spec [sampleSale] "acme" defaultFilters sampleSale
    (by simp [defaultFilters]) (by simp [defaultFilters])
    (by simp [defaultFilters]) (by simp [defaultFilters])

/-! ## C10: empty-string customer/product filters -/

/-- C10 (confirmed): a supplied empty-string `customer` or `product`
filter is treated exactly as an absent filter — the schema accepts it
(validity is unchanged) and the match results and pre-truncation match
count equal those of the same search with the filter omitted. -/
theorem empty_string_filters_ignored (d : List SaleRecord) (query : String)
    (F : SearchFilters) (lim : Option ℤ) :
    searchValid query (some { F with customer := some "", product := some "" }) lim =
      searchValid query (some { F with customer := none, product := none }) lim ∧
    (searchHandler d query (some { F with customer := some "", product := some "" })
        lim).structuredContent.results =
      (searchHandler d query (some { F with customer := none, product := none })
        lim).structuredContent.results ∧
    (searchHandler d query (some { F with customer := some "", product := some "" })
        lim).structuredContent.totalMatches =
      (searchHandler d query (some { F with customer := none, product := none })
        lim).structuredContent.totalMatches :=
  ⟨rfl, rfl, rfl⟩

/-! ## C2 / C8: fetch resolution -/

/-- The `forEach` loop of `fetch` resolves to the found records (in
order) and the unresolved ids (in order). -/
theorem fetchResolve_eq (store : String → Option SaleRecord) (l : List String) :
    fetchResolve store l =
      (l.filterMap store, l.filter (fun i => (store i).isNone)) := by
  induction l with
  | nil => rfl
  | cons i rest ih =>
    cases h : store i <;>
      simp [fetchResolve, ih, h, List.filterMap_cons, List.filter_cons]

/-- Elements of `firstDedupAux seen l` are the elements of `l` outside
`seen`. -/
theorem firstDedupAux_mem (l : List String) : ∀ (seen : List String) (a : String),
    a ∈ firstDedupAux seen l ↔ a ∈ l ∧ a ∉ seen := by
  induction l with
  | nil => intro seen a; simp [firstDedupAux]
  | cons x t ih =>
    intro seen a
    by_cases hx : x ∈ seen
    · rw [firstDedupAux, if_pos hx, ih]
      constructor
      · exact fun h => ⟨List.mem_cons_of_mem x h.1, h.2⟩
      · rintro ⟨hm, hns⟩
        rcases List.mem_cons.mp hm with rfl | hm
        · exact absurd hx hns
        · exact ⟨hm, hns⟩
    · rw [firstDedupAux, if_neg hx]
      by_cases hax : a = x
      · subst hax
        simp [hx]
      · rw [List.mem_cons, ih]
        simp [hax, List.mem_cons]

/-- `firstDedupAux` produces no duplicates. -/
theorem firstDedupAux_nodup (l : List String) : ∀ (seen : List String),
    (firstDedupAux seen l).Nodup := by
  induction l with
  | nil => intro seen; simp [firstDedupAux]
  | cons x t ih =>
    intro seen
    by_cases hx : x ∈ seen
    · rw [firstDedupAux, if_pos hx]; exact ih seen
    · rw [firstDedupAux, if_neg hx]
      refine List.Nodup.cons ?_ (ih (x :: seen))
      intro hmem
      exact ((firstDedupAux_mem t (x :: seen) x).mp hmem).2 (List.mem_cons_self x seen)

/-- Membership in the deduplicated list is membership in the original. -/
theorem firstDedup_mem (l : List String) (a : String) :
    a ∈ firstDedup l ↔ a ∈ l := by
  simp [firstDedup, firstDedupAux_mem]

/-- `[...new Set(l)]` equals the spec's left-to-right duplicate removal. -/
theorem firstDedup_eq_specUnique (l : List String) :
    firstDedup l = specUnique l := by
  have key : ∀ (t seen acc : List String), (∀ a, a ∈ seen ↔ a ∈ acc) →
      acc ++ firstDedupAux seen t =
        t.foldl (fun acc a => if a ∈ acc then acc else acc ++ [a]) acc := by
    intro t
    induction t with
    | nil => intro seen acc h; simp [firstDedupAux]
    | cons x t ih =>
      intro seen acc h
      by_cases hx : x ∈ seen
      · rw [firstDedupAux, if_pos hx, List.foldl_cons, if_pos ((h x).mp hx)]
        exact ih seen acc h
      · rw [firstDedupAux, if_neg hx, List.foldl_cons,
            if_neg (fun hc => hx ((h x).mpr hc))]
        have h' : ∀ a, a ∈ x :: seen ↔ a ∈ acc ++ [x] := by
          intro a; simp [List.mem_cons, List.mem_append, h, or_comm]
        calc acc ++ x :: firstDedupAux (x :: seen) t
            = (acc ++ [x]) ++ firstDedupAux (x :: seen) t := by simp
          _ = t.foldl (fun acc a => if a ∈ acc then acc else acc ++ [a]) (acc ++ [x]) :=
              ih (x :: seen) (acc ++ [x]) h'
  have := key l [] [] (by simp)
  simpa [firstDedup, specUnique] using this

/-- C2 (confirmed): `fetch` resolves exactly the ids `{id} ∪ ids` with
duplicates removed preserving first-occurrence order (`specUnique`, the
spec's left-to-right duplicate removal): the returned records are the
resolvable unique ids' records in resolution order, the missing list the
unresolvable unique ids in resolution order (omitted when empty); the
unique id list has no duplicates and exactly the requested members; and
`fetch(id="SALE-0001", ids=["SALE-0001"])` returns one record, not
two. -/
theorem fetch_partitions_unique_ids (d : List SaleRecord) (id : String)
    (ids : Option (List String)) :
    (fetchHandler d id ids).structuredContent.records =
      (specUnique (id :: ids.getD [])).filterMap (SALES_BY_ID d) ∧
    (fetchHandler d id ids).structuredContent.missing =
      (if 0 < ((specUnique (id :: ids.getD [])).filter
          (fun i => (SALES_BY_ID d i).isNone)).length then
        some ((specUnique (id :: ids.getD [])).filter
          (fun i => (SALES_BY_ID d i).isNone))
       else none) ∧
    (specUnique (id :: ids.getD [])).Nodup ∧
    (∀ a, a ∈ specUnique (id :: ids.getD []) ↔ a ∈ id :: ids.getD []) ∧
    (∀ r, SALES_BY_ID d "SALE-0001" = some r →
      (fetchHandler d "SALE-0001" (some ["SALE-0001"])).structuredContent.records = [r]) := by
  rw [← firstDedup_eq_specUnique]
  refine ⟨?_, ?_, ?_, firstDedup_mem _, ?_⟩
  · simp [fetchHandler, fetchResolve_eq]
  · simp [fetchHandler, fetchResolve_eq]
  · exact firstDedupAux_nodup _ _
  · intro r hr
    simp [fetchHandler, firstDedup, firstDedupAux, fetchResolve, hr]

/-- C2 witness: on the one-record store, fetching `SALE-0001` both as the
primary id and again in `ids` returns exactly that one record. -/
theorem fetch_partitions_unique_ids_witness :
    (fetchHandler [sampleSale] "SALE-0001"
      (some ["SALE-0001"])).structuredContent.records = [sampleSale] :=
  (fetch_partitions_unique_ids [sampleSale] "SALE-0001"
    (some ["SALE-0001"])).2.2.2.2 sampleSale (by decide)

/-- C8 (confirmed): when no requested id resolves, `fetch` still returns
a value (the model is a total function): the found-record list is empty
and the missing list carries every requested unique id. -/
theorem fetch_all_missing_ok (d : List SaleRecord) (id : String)
    (ids : Option (List String))
    (h : ∀ i, i ∈ id :: ids.getD [] → SALES_BY_ID d i = none) :
    (fetchHandler d id ids).structuredContent.records = [] ∧
    (fetchHandler d id ids).structuredContent.missing =
      some (firstDedup (id :: ids.getD [])) ∧
    (∀ i, i ∈ id :: ids.getD [] → i ∈ firstDedup (id :: ids.getD [])) := by
  have hall : ∀ i, i ∈ firstDedup (id :: ids.getD []) → SALES_BY_ID d i = none :=
    fun i hi => h i ((firstDedup_mem _ i).mp hi)
  have hmap : (firstDedup (id :: ids.getD [])).filterMap (SALES_BY_ID d) = [] := by
    rw [List.filterMap_eq_nil_iff]
    intro a ha; rw [hall a ha]
  have hfil : (firstDedup (id :: ids.getD [])).filter
      (fun i => (SALES_BY_ID d i).isNone) = firstDedup (id :: ids.getD []) := by
    rw [List.filter_eq_self]
    intro a ha; rw [hall a ha]; rfl
  have hne : 0 < (firstDedup (id :: ids.getD [])).length := by
    have : id ∈ firstDedup (id :: ids.getD []) :=
      (firstDedup_mem _ id).mpr (List.mem_cons_self _ _)
    exact List.length_pos.mpr (List.ne_nil_of_mem this)
  refine ⟨?_, ?_, fun i hi => (firstDedup_mem _ i).mpr hi⟩
  · simp [fetchHandler, fetchResolve_eq, hmap]
  · simp [fetchHandler, fetchResolve_eq, hmap, hfil, hne]

/-- C8 witness: fetching two unknown ids from the one-record store
returns no records and reports both ids missing. -/
theorem fetch_all_missing_ok_witness :
    (fetchHandler [sampleSale] "SALE-9998"
      (some ["SALE-9999"])).structuredContent.records = [] ∧
    (fetchHandler [sampleSale] "SALE-9998"
      (some ["SALE-9999"])).structuredContent.missing =
      some (firstDedup ("SALE-9998" :: (some ["SALE-9999"]).getD [])) ∧
    (∀ i, i ∈ "SALE-9998" :: (some ["SALE-9999"]).getD [] →
      i ∈ firstDedup ("SALE-9998" :: (some ["SALE-9999"]).getD [])) :=
  fetch_all_missing_ok [sampleSale] "SALE-9998" (some ["SALE-9999"])
    (by decide)

/-! ## C4: list-sales count handling -/

/-- C4 counterexample: the schema-valid range of `count` is
`[1, DATASET.length]`, so `count = 0` is rejected by validation
(`none`), not clamped and answered. -/
theorem list_count_rejected_cx :
    listTool [sampleSale] 0 (some 0) = none ∧
    listValid [sampleSale].length (some 0) = false := by decide

/-- C4 (amended): out-of-range counts are rejected by the zod schema
(`min(1).max(DATASET.length)`), per §7 of the spec, rather than clamped;
a schema-valid count `c` is accepted and answered with the first
`min(c, datasetSize) = c` records in generation order, and an omitted
count with the whole dataset. -/
theorem list_count_clamped_when_valid (d : List SaleRecord) (now : ℤ) (c : ℤ)
    (h1 : 1 ≤ c) (h2 : c ≤ (d.length : ℤ)) :
    listTool d now (some c) = some (listHandler d now (some c)) ∧
    (listHandler d now (some c)).structuredContent.records =
      d.take (min c (d.length : ℤ)).toNat ∧
    (listHandler d now (some c)).structuredContent.records = d.take c.toNat ∧
    listTool d now none = some (listHandler d now none) ∧
    (listHandler d now none).structuredContent.records = d := by
  refine ⟨?_, rfl, ?_, ?_, ?_⟩
  · simp [listTool, listValid, h1, h2]
  · simp [listHandler, min_eq_left h2]
  · simp [listTool, listValid]
  · simp [listHandler]

/-- C4 witness: the amended behavior at `count = 1` on a one-record
dataset. -/
theorem list_count_clamped_when_valid_witness :
    listTool [sampleSale] 0 (some 1) = some (listHandler [sampleSale] 0 (some 1)) ∧
    (listHandler [sampleSale] 0 (some 1)).structuredContent.records =
      [sampleSale].take (min 1 ([sampleSale].length : ℤ)).toNat ∧
    (listHandler [sampleSale] 0 (some 1)).structuredContent.records =
      [sampleSale].take (1 : ℤ).toNat ∧
    listTool [sampleSale] 0 none = some (listHandler [sampleSale] 0 none) ∧
    (listHandler [sampleSale] 0 none).structuredContent.records = [sampleSale] :=
  list_count_clamped_when_valid [sampleSale] 0 1 (by decide) (by decide)

/-! ## C5: idempotence of the three operations -/

/-- A `list-sales` response without its `generatedAt` timestamp. -/
def listSansTime (r : ToolResponse ListContent) :
    List String × ℕ × List SaleRecord × String × ℤ × ℕ × String :=
  (r.content, r.structuredContent.total, r.structuredContent.records,
   r.structuredContent.note, r.structuredContent.limit,
   r.structuredContent.totalAvailable, r.structuredContent.source)

/-- C5 counterexample: two `list-sales` invocations against the same
store with identical inputs, made at distinct instants, produce
different full responses (they differ in `buildPayload`'s `generatedAt`
timestamp). -/
theorem list_generatedAt_cx :
    listTool [sampleSale] 0 (some 1) ≠ listTool [sampleSale] 1 (some 1) := by
  intro h
  have := congrArg (Option.map (fun r => r.structuredContent.generatedAt)) h
  simp [listTool, listValid, listHandler] at this

/-- C5 (amended): `search` and `fetch` responses depend only on the
store and the inputs — two invocations at any two instants are
identical, full envelope included; `list-sales` responses agree on every
field except the `generatedAt` timestamp. -/
theorem tools_time_independent (d : List SaleRecord) (t1 t2 : ℤ)
    (c : Option ℤ) (q : String) (F : Option SearchFilters) (lim : Option ℤ)
    (id : String) (ids : Option (List String)) :
    Option.map listSansTime (listTool d t1 c) =
      Option.map listSansTime (listTool d t2 c) ∧
    searchTool d t1 q F lim = searchTool d t2 q F lim ∧
    fetchTool d t1 id ids = fetchTool d t2 id ids := by
  refine ⟨?_, rfl, rfl⟩
  simp only [listTool]
  split <;> rfl

/-! ## C9: dataset sharing across sessions -/

/-- C9 counterexample: two distinct requests (0 and 1) observe exactly
the same generated records — the module-level `DATASET` is shared by
every server `createServer()` builds, so sessions do observe the same
records. -/
theorem sessions_same_records_cx :
    sessionObservedRecords now0 (fun _ => genChoice0) 0 0 =
      sessionObservedRecords now0 (fun _ => genChoice0) 1 0 ∧
    (0 : ℕ) ≠ 1 :=
  ⟨rfl, by decide⟩

/-- C9 (amended): each request constructs its own `McpServer`, but every
request's server serves the single module-level dataset generated once
at process start; hence any two sessions serve equal record
sequences. -/
theorem sessions_share_module_dataset (now : JsDate) (f : ℕ → GenChoice)
    (i j : ℕ) :
    (handleMcpPost now f i).dataset = DATASET now f ∧
    (handleMcpPost now f i).dataset = (handleMcpPost now f j).dataset :=
  ⟨rfl, rfl⟩

/-! ## C3: the sale-date window -/

/-- An in-range random draw whose date lands at 23:59:59 of the
generation day (offset 0 days). -/
def futureChoice : GenChoice :=
  { customerIdx := 0, productIdx := 0, regionIdx := 0, statusIdx := 0,
    quantity := 1, unitPrice := 50, dateOffset := 0, dateH := 23,
    dateM := 59, dateS := 59 }

/-- C3 counterexample: generating one record at local midnight with the
in-range draw `futureChoice` (offset 0 days, time 23:59:59) yields a
`saleDate` strictly after the generation instant — `saleDate` can exceed
the generation instant, because `setHours` re-randomizes the time of day
after the offset is applied. -/
theorem saleDate_window_cx :
    validChoice futureChoice = true ∧
    (generateSales now0 1 (fun _ => futureChoice)).map
      (fun r => decide (r.saleDate.toMillis ≤ now0.toMillis)) = [false] := by
  decide

/-- C3 (amended): a generated record's `saleDate` lies in the calendar
window from local midnight 120 days before the generation day through
23:59:59.000 of the generation day: it can exceed the generation instant
by strictly less than one day, and precede it by strictly less than 121
days (not by at most 120 days, and not never exceeding it, as
claimed). -/
theorem saleDate_window_amended (now : JsDate) (count : ℕ) (f : ℕ → GenChoice)
    (r : SaleRecord) (hsod : now.sod < 86400) (hms : now.msec < 1000)
    (hf : ∀ i, validChoice (f i) = true) (hr : r ∈ generateSales now count f) :
    r.saleDate.toMillis < now.toMillis + 86400000 ∧
    now.toMillis - r.saleDate.toMillis < 121 * 86400000 := by
  obtain ⟨i, hi, heq⟩ := List.mem_map.mp hr
  subst heq
  have hv := hf i
  simp only [validChoice, Bool.and_eq_true, decide_eq_true_eq] at hv
  obtain ⟨⟨⟨⟨⟨⟨⟨⟨⟨⟨⟨-, -⟩, -⟩, -⟩, -⟩, hq2⟩, -⟩, -⟩, hoff⟩, hh⟩, hm⟩, hs⟩ := hv
  simp only [makeSale, randomDateWithinDays, JsDate.toMillis]
  push_cast
  omega

/-- C3 witness: the amended window bounds at a concrete generated
record. -/
theorem saleDate_window_amended_witness :
    (makeSale now0 0 genChoice0).saleDate.toMillis < now0.toMillis + 86400000 ∧
    now0.toMillis - (makeSale now0 0 genChoice0).saleDate.toMillis <
      121 * 86400000 :=
  saleDate_window_amended now0 1 (fun _ => genChoice0) (makeSale now0 0 genChoice0)
    (by decide) (by decide)
    (fun _ => (by decide : validChoice genChoice0 = true))
    (by simp [generateSales])

/-! ## C7: totalAmount -/

/-- C7 (confirmed): every generated record's `totalAmount` is the
two-decimal rounding of `quantity * unitPrice`, and — the factors being
integers — equals the exact product. -/
theorem totalAmount_exact (now : JsDate) (count : ℕ) (f : ℕ → GenChoice)
    (r : SaleRecord) (hr : r ∈ generateSales now count f) :
    r.totalAmount = round2 ((r.quantity * r.unitPrice : ℕ) : ℚ) ∧
    r.totalAmount = (r.quantity : ℚ) * (r.unitPrice : ℚ) := by
  obtain ⟨i, hi, heq⟩ := List.mem_map.mp hr
  subst heq
  refine ⟨rfl, ?_⟩
  show round2 (((f i).quantity * (f i).unitPrice : ℕ) : ℚ) =
    ((f i).quantity : ℚ) * ((f i).unitPrice : ℚ)
  unfold round2
  have hcast : (((f i).quantity * (f i).unitPrice : ℕ) : ℚ) * 100 =
      (((f i).quantity * (f i).unitPrice * 100 : ℕ) : ℚ) := by push_cast; ring
  rw [hcast, round_natCast]
  push_cast
  rw [mul_div_assoc]
  norm_num

/-- C7 witness: the exact-product identity at a concrete generated
record (quantity 2, unit price 100, total 200). -/
theorem totalAmount_exact_witness :
    (makeSale now0 0 genChoice0).totalAmount =
      round2 (((makeSale now0 0 genChoice0).quantity *
        (makeSale now0 0 genChoice0).unitPrice : ℕ) : ℚ) ∧
    (makeSale now0 0 genChoice0).totalAmount =
      ((makeSale now0 0 genChoice0).quantity : ℚ) *
        ((makeSale now0 0 genChoice0).unitPrice : ℚ) :=
  totalAmount_exact now0 1 (fun _ => genChoice0) (makeSale now0 0 genChoice0)
    (by simp [generateSales])

/-! ## C6: search-result uri and fetch round-trip -/

/-- Folding the map-construction over records whose id never equals
`key` leaves the accumulator unchanged. -/
theorem sales_foldl_no_key (l : List SaleRecord) (key : String) :
    ∀ acc, key ∉ l.map SaleRecord.id →
      l.foldl (fun acc r => if r.id == key then some r else acc) acc = acc := by
  induction l with
  | nil => intro acc _; rfl
  | cons a t ih =>
    intro acc h
    simp only [List.map_cons, List.mem_cons, not_or] at h
    have hbeq : (a.id == key) = false :=
      beq_eq_false_iff_ne.mpr (fun e => h.1 e.symm)
    rw [List.foldl_cons, hbeq]
    exact ih acc h.2

/-- On a store with pairwise-distinct ids, looking a member record's id
up in `SALES_BY_ID` returns that record (for any accumulator: the last
insertion under the key wins, and the key occurs once). -/
theorem sales_foldl_mem : ∀ (d : List SaleRecord) (r : SaleRecord)
    (acc : Option SaleRecord), (d.map SaleRecord.id).Nodup → r ∈ d →
    d.foldl (fun acc x => if x.id == r.id then some x else acc) acc = some r := by
  intro d r
  induction d with
  | nil => intro acc _ hr; exact absurd hr (List.not_mem_nil r)
  | cons a t ih =>
    intro acc hnd hr
    rw [List.map_cons, List.nodup_cons] at hnd
    rw [List.foldl_cons]
    rcases List.mem_cons.mp hr with heq | hmem
    · subst heq
      rw [if_pos (by simp)]
      exact sales_foldl_no_key t r.id (some r) hnd.1
    · exact ih _ hnd.2 hmem

/-- `SALES_BY_ID` resolves a member's id to that member when the
dataset's ids have no duplicates. -/
theorem SALES_BY_ID_mem (d : List SaleRecord) (r : SaleRecord)
    (hnd : (d.map SaleRecord.id).Nodup) (hr : r ∈ d) :
    SALES_BY_ID d r.id = some r :=
  sales_foldl_mem d r none hnd hr

/-- C6 (amended): every search result's `uri` is the dataset resource
URI plus the record id as a fragment, and the result's `id` field — the
uri's fragment, not the full uri string — passed as `fetch`'s primary id
resolves to exactly the underlying record (on a store with distinct
ids). -/
theorem search_uri_roundtrip (d : List SaleRecord) (q : String)
    (F : Option SearchFilters) (lim : Option ℤ) (res : SearchResult)
    (hnd : (d.map SaleRecord.id).Nodup)
    (hres : res ∈ (searchHandler d q F lim).structuredContent.results) :
    ∃ r ∈ d, res.id = r.id ∧ res.uri = RESOURCE_URI ++ "#" ++ r.id ∧
      (fetchHandler d res.id none).structuredContent.records = [r] := by
  simp only [searchHandler] at hres
  obtain ⟨sale, hsale, heq⟩ := List.mem_map.mp hres
  subst heq
  have hmem_matches : sale ∈ searchMatches d q (F.getD defaultFilters) :=
    List.mem_of_mem_take hsale
  have hmem_d : sale ∈ d := (List.mem_filter.mp hmem_matches).1
  have hget : SALES_BY_ID d sale.id = some sale := SALES_BY_ID_mem d sale hnd hmem_d
  exact ⟨sale, hmem_d, rfl, rfl, by
    simp [fetchHandler, firstDedup, firstDedupAux, fetchResolve, hget]⟩

/-- C6 counterexample: the sole search result for `query = "acme"` on
the one-record store carries
`uri = "mcp://ventas/records#SALE-0001"`, but passing that uri string as
`fetch`'s `id` resolves to no record — `fetch` performs no fragment
parsing, so the uri is not usable as its `id` input. -/
theorem search_uri_fetch_cx :
    (searchHandler [sampleSale] "acme" none none).structuredContent.results.map
      SearchResult.uri = ["mcp://ventas/records#SALE-0001"] ∧
    (fetchTool [sampleSale] 0 "mcp://ventas/records#SALE-0001" none).map
      (fun resp => resp.structuredContent.records) = some [] ∧
    (fetchTool [sampleSale] 0 "mcp://ventas/records#SALE-0001" none).map
      (fun resp => resp.structuredContent.missing) =
      some (some ["mcp://ventas/records#SALE-0001"]) :=
  ⟨rfl, rfl, rfl⟩

/-- The search-result entry the handler builds for `sampleSale`. -/
def sampleResult : SearchResult :=
  { id := sampleSale.id
    title := sampleSale.customerName ++ " · " ++ sampleSale.productName
    snippet := "Estado " ++ sampleSale.status ++ " · Total USD " ++
               toFixed2 sampleSale.totalAmount ++ " · Región " ++ sampleSale.region
    uri := RESOURCE_URI ++ "#" ++ sampleSale.id
    score := 1 }

/-- C6 witness: the amended round-trip at the concrete one-record
store. -/
theorem search_uri_roundtrip_witness :
    ∃ r ∈ [sampleSale], sampleResult.id = r.id ∧
      sampleResult.uri = RESOURCE_URI ++ "#" ++ r.id ∧
      (fetchHandler [sampleSale] sampleResult.id none).structuredContent.records =
        [r] :=
  search_uri_roundtrip [sampleSale] "acme" none none sampleResult
    (by decide) (by exact List.mem_singleton_self sampleResult)
